import Mathlib

/-!
Verification development for the `llm_lab_sdk_js` client library.

The development shallowly embeds the library's streaming-response protocol
handler and its non-streaming request path:

* `processLine`, `onData`, `onEnd`, `streamEvents` model `LLMLabSDK.processLine`
  and the `data`/`end` handlers installed by `LLMLabSDK.readStream`
  (`src/index.js`);
* `utf8ByteStep`/`utf8FeedChunk` model the persistent-state
  `TextDecoder('utf-8')` used by `readStream`;
* `jsonParse` models the platform `JSON.parse` (grammar-faithful; numeric
  lexemes are kept as raw character lists because the library never consumes
  a numeric value);
* `listenToStreamMessage`, `createChatResponse`, `stopChatStream` model the
  EventSource-based handler in the variant SDK file
  (`listenToStream` / `createChatResponse` / `stopChatStream`);
* `chatWithAgentFuture` models the non-streaming call of `src/index.js`,
  with the HTTP exchange abstracted to a `FetchOutcome` value.

Strings are modelled as `List Char`, bytes as `Nat`.  JavaScript `Error`
objects delivered to callbacks are abstracted to fixed descriptor strings,
since their exact text is engine-dependent and never inspected by the code.
-/

/-- Model of a JavaScript JSON value as produced by `JSON.parse`.
Numeric literals keep their raw lexeme: the SDK never reads a number's
value, only the structural shape of parsed data. -/
inductive JsonValue where
  | null : JsonValue
  | bool (b : Bool) : JsonValue
  | num (lexeme : List Char) : JsonValue
  | str (s : List Char) : JsonValue
  | arr (elems : List JsonValue) : JsonValue
  | obj (fields : List (List Char × JsonValue)) : JsonValue

/-- The double-quote character. -/
def qc : Char := Char.ofNat 34

/-- The backslash character. -/
def bsc : Char := Char.ofNat 92

/-- The opening-brace character. -/
def lbr : Char := Char.ofNat 123

/-- The closing-brace character. -/
def rbr : Char := Char.ofNat 125

/-- JSON insignificant whitespace (space, tab, line feed, carriage return). -/
def isWsChar (c : Char) : Bool :=
  c = ' ' ∨ c = Char.ofNat 9 ∨ c = Char.ofNat 10 ∨ c = Char.ofNat 13

/-- Drop leading JSON whitespace. -/
def skipWs (l : List Char) : List Char := l.dropWhile isWsChar

/-- A scalar value for a code point, with invalid code points (surrogates,
out-of-range) replaced by U+FFFD as a decoder would. -/
def mkChar (n : Nat) : Char :=
  if n < 0xD800 ∨ (0xDFFF < n ∧ n < 0x110000) then Char.ofNat n
  else Char.ofNat 0xFFFD

/-- Value of a hexadecimal digit. -/
def hexVal (c : Char) : Option Nat :=
  if c.isDigit then some (c.toNat - 48)
  else if 'a' ≤ c ∧ c ≤ 'f' then some (c.toNat - 87)
  else if 'A' ≤ c ∧ c ≤ 'F' then some (c.toNat - 55)
  else none

/-- Single-character JSON string escapes. -/
def escMap (c : Char) : Option Char :=
  if c = qc then some qc
  else if c = bsc then some bsc
  else if c = '/' then some '/'
  else if c = 'b' then some (Char.ofNat 8)
  else if c = 'f' then some (Char.ofNat 12)
  else if c = 'n' then some (Char.ofNat 10)
  else if c = 'r' then some (Char.ofNat 13)
  else if c = 't' then some (Char.ofNat 9)
  else none

/-- Body of a JSON string literal, after the opening quote: returns the
decoded characters and the input following the closing quote. -/
def parseStrBody : Nat → List Char → Option (List Char × List Char)
  | 0, _ => none
  | _ + 1, [] => none
  | f + 1, c :: rest =>
    if c = qc then some ([], rest)
    else if c = bsc then
      match rest with
      | [] => none
      | e :: r2 =>
        if e = 'u' then
          match r2 with
          | h1 :: h2 :: h3 :: h4 :: r3 =>
            match hexVal h1, hexVal h2, hexVal h3, hexVal h4 with
            | some a, some b, some c3, some d =>
              (parseStrBody f r3).map
                (fun p => (mkChar (((a * 16 + b) * 16 + c3) * 16 + d) :: p.1, p.2))
            | _, _, _, _ => none
          | _ => none
        else
          match escMap e with
          | some ch => (parseStrBody f r2).map (fun p => (ch :: p.1, p.2))
          | none => none
    else if c.toNat < 32 then none
    else (parseStrBody f rest).map (fun p => (c :: p.1, p.2))

/-- Optional fraction part of a JSON number. -/
def parseFrac (l : List Char) : Option (List Char × List Char) :=
  match l with
  | p :: r =>
    if p = '.' then
      let fd := r.takeWhile Char.isDigit
      if fd = [] then none else some (p :: fd, r.drop fd.length)
    else some ([], l)
  | [] => some ([], l)

/-- Optional exponent part of a JSON number. -/
def parseExp (l : List Char) : Option (List Char × List Char) :=
  match l with
  | p :: r =>
    if p = 'e' ∨ p = 'E' then
      match r with
      | c :: r3 =>
        if c = '+' ∨ c = '-' then
          let ds := r3.takeWhile Char.isDigit
          if ds = [] then none else some (p :: c :: ds, r3.drop ds.length)
        else
          let ds := r.takeWhile Char.isDigit
          if ds = [] then none else some (p :: ds, r.drop ds.length)
      | [] => none
    else some ([], l)
  | [] => some ([], l)

/-- A JSON numeric literal: returns its raw lexeme and the rest of the input. -/
def parseNum (l : List Char) : Option (List Char × List Char) :=
  let sp : List Char × List Char :=
    match l with
    | c :: r => if c = '-' then ([c], r) else ([], l)
    | [] => ([], l)
  match sp.2 with
  | [] => none
  | d :: _ =>
    if d.isDigit then
      let ip := sp.2.takeWhile Char.isDigit
      if d = '0' ∧ ip.length ≠ 1 then none
      else do
        let fr ← parseFrac (sp.2.drop ip.length)
        let ex ← parseExp fr.2
        pure (sp.1 ++ ip ++ fr.1 ++ ex.1, ex.2)
    else none

mutual

/-- Fueled recursive-descent parser for one JSON value. -/
def parseVal : Nat → List Char → Option (JsonValue × List Char)
  | 0, _ => none
  | f + 1, l =>
    let t := skipWs l
    if (("null").data).isPrefixOf t then some (.null, t.drop 4)
    else if (("true").data).isPrefixOf t then some (.bool true, t.drop 4)
    else if (("false").data).isPrefixOf t then some (.bool false, t.drop 5)
    else
      match t with
      | [] => none
      | c :: rest =>
        if c = qc then (parseStrBody f rest).map (fun p => (.str p.1, p.2))
        else if c = '[' then
          match skipWs rest with
          | c2 :: r2 =>
            if c2 = ']' then some (.arr [], r2)
            else (parseElems f (skipWs rest)).map (fun p => (.arr p.1, p.2))
          | [] => none
        else if c = lbr then
          match skipWs rest with
          | c2 :: r2 =>
            if c2 = rbr then some (.obj [], r2)
            else (parseMembers f (skipWs rest)).map (fun p => (.obj p.1, p.2))
          | [] => none
        else (parseNum t).map (fun p => (.num p.1, p.2))

/-- One or more comma-separated array elements followed by a closing bracket. -/
def parseElems : Nat → List Char → Option (List JsonValue × List Char)
  | 0, _ => none
  | f + 1, l => do
    let vr ← parseVal f l
    match skipWs vr.2 with
    | c :: r2 =>
      if c = ',' then (parseElems f r2).map (fun p => (vr.1 :: p.1, p.2))
      else if c = ']' then some ([vr.1], r2)
      else none
    | [] => none

/-- One or more comma-separated object members followed by a closing brace. -/
def parseMembers : Nat → List Char → Option (List (List Char × JsonValue) × List Char)
  | 0, _ => none
  | f + 1, l =>
    match skipWs l with
    | c :: r =>
      if c = qc then do
        let kv ← parseStrBody f r
        match skipWs kv.2 with
        | c2 :: r3 =>
          if c2 = ':' then do
            let vr ← parseVal f r3
            match skipWs vr.2 with
            | c3 :: r5 =>
              if c3 = ',' then
                (parseMembers f r5).map (fun p => ((kv.1, vr.1) :: p.1, p.2))
              else if c3 = rbr then some ([(kv.1, vr.1)], r5)
              else none
            | [] => none
          else none
        | [] => none
      else none
    | [] => none

end

/-- Model of `JSON.parse`: a complete JSON text with optional surrounding
whitespace, rejecting trailing garbage.  `none` models a thrown
`SyntaxError`. -/
def jsonParse (l : List Char) : Option JsonValue :=
  match parseVal (2 * l.length + 2) l with
  | some vr => if skipWs vr.2 = [] then some vr.1 else none
  | none => none

/-- Duplicate keys resolve to the last occurrence, as in a JavaScript object
built by `JSON.parse`. -/
def lookupField (fs : List (List Char × JsonValue)) (k : List Char) : Option JsonValue :=
  fs.foldl (fun acc p => if p.1 = k then some p.2 else acc) none

example : jsonParse (("\x7b\x22response\x22:\x22hi\x22\x7d").data) =
    some (.obj [((("response").data), .str (("hi").data))]) := by rfl

example : jsonParse (("\x7b\x22statusCode\x22:500,\x22message\x22:\x22boom\x22\x7d").data) =
    some (.obj [((("statusCode").data), .num (("500").data)),
                ((("message").data), .str (("boom").data))]) := by rfl

example : jsonParse (("x data: y").data) = none := by rfl

example : jsonParse (("[1, 2]").data) =
    some (.arr [.num (("1").data), .num (("2").data)]) := by rfl

/-- The frame marker `"data: "` tested for by the line processors. -/
def dataMarker : List Char := ("data: ").data

/-- The server's crude end-of-stream sentinel token. -/
def undefMarker : List Char := ("undefined").data

/-- The token whose presence marks a server-sent error payload. -/
def statusMarker : List Char := ("statusCode").data

/-- Model of JavaScript `String.prototype.includes`: substring containment. -/
def hasSub (l pat : List Char) : Bool := l.tails.any (fun t => pat.isPrefixOf t)

/-- Model of JavaScript `String.prototype.trim` (restricted to the ASCII
whitespace the protocol can produce). -/
def trimWs (l : List Char) : List Char :=
  ((l.dropWhile isWsChar).reverse.dropWhile isWsChar).reverse

/-- Descriptor for the `onError` argument built by `processLine`'s catch
block; the engine-dependent `Error` text is abstracted. -/
def parseFailMsg : List Char := ("Error processing data: SyntaxError").data

/-- One callback invocation made by the fetch-based stream decoder of
`src/index.js`: `onSuccess(data)`, `onError(msg)` or `onComplete()`. -/
inductive Event where
  | success (data : JsonValue) : Event
  | error (msg : List Char) : Event
  | complete : Event

/-- Model of `LLMLabSDK.processLine` (src/index.js): skip lines that are
empty or do not contain `"data: "`; a line containing `undefined` invokes
the completion callback; otherwise the `"data: "` prefix is stripped only
when the line starts with it, the remainder is `JSON.parse`d, and the
parsed value goes to the success callback (the error callback on a parse
failure).  The returned list is the ordered sequence of callback
invocations the line produces. -/
def processLine (line : List Char) : List Event :=
  if line = [] ∨ hasSub line dataMarker = false then []
  else if hasSub line undefMarker then [Event.complete]
  else
    let payload := if dataMarker.isPrefixOf line then line.drop 6 else line
    match jsonParse payload with
    | some v => [Event.success v]
    | none => [Event.error parseFailMsg]

/-- The per-line dispatch of `readStream`'s `data` handler:
`lines.forEach(line => { if (line) this.processLine(...) })`. -/
def lineEvents (line : List Char) : List Event :=
  if line = [] then [] else processLine line

/-- Callback sequence produced by a list of already-split complete lines. -/
def linesEvents (ls : List (List Char)) : List Event :=
  (ls.map lineEvents).flatten

example : processLine (("data: \x7b\x22response\x22:\x22hi\x22\x7d").data) =
    [Event.success (.obj [((("response").data), .str (("hi").data))])] := by rfl

example : processLine (("data: undefined").data) = [Event.complete] := by rfl

example : processLine (("data: \x7b\x22statusCode\x22:500,\x22message\x22:\x22boom\x22\x7d").data) =
    [Event.success (.obj [((("statusCode").data), .num (("500").data)),
                          ((("message").data), .str (("boom").data))])] := by rfl

example : processLine (("x data: y").data) = [Event.error parseFailMsg] := by rfl

example : processLine (("keep-alive").data) = [] := by rfl

/-- Persistent state of the streaming `TextDecoder('utf-8')`: the number of
continuation bytes still expected and the code-point bits accumulated so
far. -/
structure DecoderState where
  need : Nat
  acc : Nat
deriving DecidableEq

/-- The Unicode replacement character emitted for invalid byte sequences. -/
def replChar : Char := Char.ofNat 0xFFFD

/-- Reaction of the UTF-8 state machine to a byte arriving in the initial
state (WHATWG decoder, with the mid-sequence overlong/surrogate range
tightening folded into the final `mkChar` clamp). -/
def utf8Lead (b : Nat) : DecoderState × List Char :=
  if b < 0x80 then (⟨0, 0⟩, [Char.ofNat b])
  else if b < 0xC2 then (⟨0, 0⟩, [replChar])
  else if b < 0xE0 then (⟨1, b - 0xC0⟩, [])
  else if b < 0xF0 then (⟨2, b - 0xE0⟩, [])
  else if b < 0xF5 then (⟨3, b - 0xF0⟩, [])
  else (⟨0, 0⟩, [replChar])

/-- One byte of incremental UTF-8 decoding: a non-continuation byte arriving
mid-sequence emits a replacement character and is reprocessed as a lead
byte, as the streaming decoder does. -/
def utf8ByteStep (s : DecoderState) (b : Nat) : DecoderState × List Char :=
  if s.need = 0 then utf8Lead b
  else if 0x80 ≤ b ∧ b < 0xC0 then
    if s.need = 1 then (⟨0, 0⟩, [mkChar (s.acc * 64 + (b - 0x80))])
    else (⟨s.need - 1, s.acc * 64 + (b - 0x80)⟩, [])
  else
    let p := utf8Lead b
    (p.1, replChar :: p.2)

/-- One byte applied to a decoder state paired with the output accumulated
so far. -/
def utf8Step (p : DecoderState × List Char) (b : Nat) : DecoderState × List Char :=
  ((utf8ByteStep p.1 b).1, p.2 ++ (utf8ByteStep p.1 b).2)

/-- Model of `decoder.decode(chunk, { stream: true })`: fold the byte-level
state machine over one chunk, returning the updated decoder state and the
characters the chunk contributed. -/
def utf8FeedChunk (d : DecoderState) (chunk : List Nat) : DecoderState × List Char :=
  chunk.foldl utf8Step (d, [])

/-- Model of `buffer.split('\n')` followed by `buffer = lines.pop()`:
returns the complete lines and the trailing partial line that is retained
as the new buffer. -/
def splitLines : List Char → List (List Char) × List Char
  | [] => ([], [])
  | c :: cs =>
    let p := splitLines cs
    if c = Char.ofNat 10 then ([] :: p.1, p.2)
    else
      match p.1 with
      | [] => ([], c :: p.2)
      | l :: ls => ((c :: l) :: ls, p.2)

example : splitLines (("ab\ncd").data) = ([("ab").data], ("cd").data) := by rfl

example : splitLines (("ab\n").data) = ([("ab").data], []) := by rfl

example : splitLines (("abc").data) = ([], ("abc").data) := by rfl

/-- State of the `readStream` decoder between chunk deliveries, together
with the callback invocations made so far. -/
structure StreamState where
  dec : DecoderState
  buffer : List Char
  events : List Event

/-- Model of `readStream`'s `stream.on('data', ...)` handler: decode the
chunk with the persistent decoder, append to the buffer, split off the
complete lines (retaining the trailing partial line as the new buffer) and
process each non-empty line in order. -/
def onData (st : StreamState) (chunk : List Nat) : StreamState :=
  let p := utf8FeedChunk st.dec chunk
  let q := splitLines (st.buffer ++ p.2)
  ⟨p.1, q.2, st.events ++ linesEvents q.1⟩

/-- Model of `readStream`'s `stream.on('end', ...)` handler: process any
residual buffered line, then invoke the completion callback
(unconditionally). -/
def onEnd (st : StreamState) : List Event :=
  st.events ++ (if st.buffer = [] then [] else processLine st.buffer) ++ [Event.complete]

/-- The decoder's initial state: empty decoder, empty buffer, no events. -/
def initState : StreamState := ⟨⟨0, 0⟩, [], []⟩

/-- Complete callback sequence produced by feeding the given byte chunks to
`readStream` and then delivering end-of-input. -/
def streamEvents (chunks : List (List Nat)) : List Event :=
  onEnd (chunks.foldl onData initState)

/-- Normalized result object built by `createChatResponse`: exactly the two
projected fields, each `none` when the server omitted it (JavaScript
`undefined`). -/
structure ChatResponse where
  response : Option JsonValue
  systemPrompt : Option JsonValue

/-- JavaScript member access `v.k` on a parsed JSON value: throws
(`Except.error`) on `null`, yields the field (or `undefined` = `none`) on
an object, and `undefined` on every other value (prototype properties
ignored). -/
def jsField : JsonValue → List Char → Except Unit (Option JsonValue)
  | .null, _ => .error ()
  | .obj fs, k => .ok (lookupField fs k)
  | _, _ => .ok none

/-- The key `"response"`. -/
def respKey : List Char := ("response").data

/-- The key `"systemPrompt"`. -/
def sysKey : List Char := ("systemPrompt").data

/-- Model of `createChatResponse` (EventSource variant): project out the
`response` and `systemPrompt` members of the decoded value, propagating the
exception a member access on `null` raises. -/
def createChatResponse (decoded : JsonValue) : Except Unit ChatResponse :=
  match jsField decoded respKey with
  | .error e => .error e
  | .ok r =>
    match jsField decoded sysKey with
    | .error e => .error e
    | .ok s => .ok ⟨r, s⟩

/-- One callback invocation made by the EventSource-based handler. -/
inductive ESEvent where
  | success (r : ChatResponse) : ESEvent
  | error (raw : List Char) : ESEvent
  | complete : ESEvent

/-- Descriptor for the error object the EventSource handler's catch block
passes to `onError` on a JSON parse failure. -/
def esSyntaxErrMsg : List Char := ("SyntaxError").data

/-- Descriptor for the error object the EventSource handler's catch block
passes to `onError` on a member access that throws. -/
def esTypeErrMsg : List Char := ("TypeError").data

/-- Model of the `onmessage` handler installed by `listenToStream`
(EventSource variant): skip blank lines and lines not starting with
`"data: "`; strip and trim the payload; a payload containing `statusCode`
goes raw to the error callback; one containing `undefined` invokes the
completion callback (and closes the source); otherwise the payload is
parsed, projected by `createChatResponse` and delivered to the success
callback, with any exception routed to the error callback. -/
def listenToStreamMessage (line : List Char) : List ESEvent :=
  if trimWs line = [] ∨ dataMarker.isPrefixOf line = false then []
  else
    let jsonData := trimWs (line.drop 6)
    if hasSub jsonData statusMarker then [ESEvent.error jsonData]
    else if hasSub jsonData undefMarker then [ESEvent.complete]
    else
      match jsonParse jsonData with
      | some v =>
        match createChatResponse v with
        | .ok r => [ESEvent.success r]
        | .error _ => [ESEvent.error esTypeErrMsg]
      | none => [ESEvent.error esSyntaxErrMsg]

example : listenToStreamMessage (("data: \x7b\x22statusCode\x22:500,\x22message\x22:\x22boom\x22\x7d").data) =
    [ESEvent.error (("\x7b\x22statusCode\x22:500,\x22message\x22:\x22boom\x22\x7d").data)] := by rfl

example : listenToStreamMessage (("data: \x7b\x22response\x22:\x22hi\x22,\x22extra\x22:1\x7d").data) =
    [ESEvent.success ⟨some (.str (("hi").data)), none⟩] := by rfl

/-- Model of `stopChatStream`: when a live handle exists it is closed
(recorded as an emitted effect) and the reference cleared; otherwise
nothing happens.  Returns the new handle reference and the close effects
performed. -/
def stopChatStream {H : Type} (es : Option H) : Option H × List H :=
  match es with
  | some h => (none, [h])
  | none => (none, [])

/-- Outcome of the `fetch` + `response.json()` exchange performed by
`chatWithAgentFuture`, abstracting the HTTP layer: either the transport
rejected, or a response arrived with a status code and a body text. -/
inductive FetchOutcome where
  | networkError (msg : List Char) : FetchOutcome
  | response (status : Nat) (body : List Char) : FetchOutcome

/-- Result value of the non-streaming call: `{success: true, content}` or
`{success: false, error}`.  The content is `none` when the extracted
message text is JavaScript `undefined`. -/
inductive ChatResult where
  | success (content : Option JsonValue) : ChatResult
  | failure (err : List Char) : ChatResult

/-- Descriptor for a rejected `response.json()`. -/
def bodyParseErrMsg : List Char := ("SyntaxError: invalid JSON").data

/-- Descriptor for the `Error` thrown on a non-201 status. -/
def httpErrMsg (status : Nat) : List Char :=
  ("HTTP error! status: ").data ++ (toString status).data

/-- Descriptor for the `TypeError` thrown when `data.choices[0].message`
is accessed on a body without that shape. -/
def chainTypeErrMsg : List Char := ("TypeError: cannot read choices").data

/-- JavaScript member access lifted to a possibly-`undefined` receiver. -/
def jsFieldOpt : Option JsonValue → List Char → Except Unit (Option JsonValue)
  | none, _ => .error ()
  | some v, k => jsField v k

/-- JavaScript index access `v[i]` on a possibly-`undefined` receiver:
throws on `undefined`/`null`, selects an element of an array (or a
one-character string of a string), `undefined` otherwise. -/
def jsIndexOpt : Option JsonValue → Nat → Except Unit (Option JsonValue)
  | none, _ => .error ()
  | some .null, _ => .error ()
  | some (.arr es), i => .ok es[i]?
  | some (.str s), i => .ok ((s[i]?).map (fun ch => JsonValue.str [ch]))
  | some _, _ => .ok none

/-- The member chain `data.choices[0].message.content`. -/
def extractContent (d : JsonValue) : Except Unit (Option JsonValue) := do
  let c ← jsFieldOpt (some d) (("choices").data)
  let c0 ← jsIndexOpt c 0
  let m ← jsFieldOpt c0 (("message").data)
  jsFieldOpt m (("content").data)

/-- Model of `chatWithAgentFuture` (src/index.js): parse the response body,
throw on a status other than 201, extract the first choice's message
content, and collapse every thrown exception into a `{success: false}`
result via the surrounding try/catch. -/
def chatWithAgentFuture (o : FetchOutcome) : ChatResult :=
  match o with
  | .networkError m => .failure m
  | .response status body =>
    match jsonParse body with
    | none => .failure bodyParseErrMsg
    | some data =>
      if status ≠ 201 then .failure (httpErrMsg status)
      else
        match extractContent data with
        | .ok content => .success content
        | .error _ => .failure chainTypeErrMsg

/-- A well-formed success body with message text `"ok"`. -/
def okBody : List Char :=
  ("\x7b\x22choices\x22:[\x7b\x22message\x22:\x7b\x22content\x22:\x22ok\x22\x7d\x7d]\x7d").data

example : chatWithAgentFuture (.response 201 okBody) =
    .success (some (.str (("ok").data))) := by rfl

example : chatWithAgentFuture (.response 200 okBody) =
    .failure (httpErrMsg 200) := by rfl

/-- Prepend a carried partial line to the first of a list of lines (no-op
when there is no line to extend). -/
def consFirst (r : List Char) : List (List Char) → List (List Char)
  | [] => []
  | l :: ls => (r ++ l) :: ls

theorem consFirst_nil (ls : List (List Char)) : consFirst [] ls = ls := by
  cases ls <;> simp [consFirst]

/-- How line splitting decomposes over concatenation: the last (partial)
line of the first part is glued onto the first line of the second part. -/
theorem splitLines_append (a b : List Char) :
    splitLines (a ++ b) =
      ((splitLines a).1 ++ consFirst (splitLines a).2 (splitLines b).1,
       if (splitLines b).1 = [] then (splitLines a).2 ++ (splitLines b).2
       else (splitLines b).2) := by
  induction a with
  | nil =>
    by_cases h : (splitLines b).1 = []
    · simp only [List.nil_append, splitLines, consFirst_nil, h, if_true]
      rw [← h]
    · simp only [List.nil_append, splitLines, consFirst_nil, if_neg h]
  | cons c a ih =>
    by_cases hc : c = Char.ofNat 10
    · subst hc
      simp only [List.cons_append, splitLines, List.append_eq, if_pos rfl, ih]
      simp
    · simp only [List.cons_append, splitLines, List.append_eq, if_neg hc, ih]
      cases ha : (splitLines a).1 with
      | nil =>
        cases hb : (splitLines b).1 with
        | nil => simp [hb, consFirst]
        | cons l ls => simp [hb, consFirst]
      | cons l0 ls0 => simp [consFirst]

/-- The retained partial line never contains a newline. -/
theorem nl_not_mem_splitLines_rest (l : List Char) :
    Char.ofNat 10 ∉ (splitLines l).2 := by
  induction l with
  | nil => simp [splitLines]
  | cons c cs ih =>
    by_cases hc : c = Char.ofNat 10
    · simpa [splitLines, hc] using ih
    · cases h : (splitLines cs).1 with
      | nil =>
        simp only [splitLines, if_neg hc, h]
        intro hmem
        rcases List.mem_cons.mp hmem with h1 | h2
        · exact hc h1.symm
        · exact ih h2
      | cons l0 ls0 =>
        simp only [splitLines, if_neg hc, h]
        exact ih

/-- A newline-free text splits into no complete line and itself as the
retained partial line. -/
theorem splitLines_of_not_mem (l : List Char) (h : Char.ofNat 10 ∉ l) :
    splitLines l = ([], l) := by
  induction l with
  | nil => rfl
  | cons c cs ih =>
    have hc : ¬ c = Char.ofNat 10 := fun hh => h (hh ▸ List.mem_cons_self c cs)
    have hcs : Char.ofNat 10 ∉ cs := fun hh => h (List.mem_cons_of_mem c hh)
    simp [splitLines, ih hcs, hc]

/-- The per-line event dispatch distributes over concatenation of line
lists. -/
theorem linesEvents_append (x y : List (List Char)) :
    linesEvents (x ++ y) = linesEvents x ++ linesEvents y := by
  simp [linesEvents, List.map_append, List.flatten_append]

/-- Running the byte state machine from an arbitrary carried output shifts
that output to the front of the chunk's own contribution. -/
theorem utf8Feed_shift (l : List Nat) (p : DecoderState × List Char) :
    l.foldl utf8Step p = ((utf8FeedChunk p.1 l).1, p.2 ++ (utf8FeedChunk p.1 l).2) := by
  induction l generalizing p with
  | nil => simp [utf8FeedChunk]
  | cons b l ih =>
    rw [List.foldl_cons, ih (utf8Step p b)]
    rw [show utf8FeedChunk p.1 (b :: l) = (b :: l).foldl utf8Step (p.1, []) from rfl]
    rw [List.foldl_cons, ih (utf8Step (p.1, []) b)]
    simp [utf8Step, List.append_assoc]

/-- Incremental decoding of a concatenation: the decoder state threads
through and the outputs concatenate — chunk boundaries are invisible. -/
theorem utf8FeedChunk_append (d : DecoderState) (a b : List Nat) :
    utf8FeedChunk d (a ++ b) =
      ((utf8FeedChunk (utf8FeedChunk d a).1 b).1,
       (utf8FeedChunk d a).2 ++ (utf8FeedChunk (utf8FeedChunk d a).1 b).2) := by
  rw [show utf8FeedChunk d (a ++ b) = (a ++ b).foldl utf8Step (d, []) from rfl]
  rw [List.foldl_append utf8Step (d, []) a b]
  rw [utf8Feed_shift b (a.foldl utf8Step (d, []))]
  rw [show a.foldl utf8Step (d, []) = utf8FeedChunk d a from rfl]

/-- Delivering two chunks one after the other is the same as delivering
their concatenation: the decoder state, retained buffer and emitted events
all agree. -/
theorem onData_append (st : StreamState) (a b : List Nat) :
    onData (onData st a) b = onData st (a ++ b) := by
  simp only [onData]
  rw [utf8FeedChunk_append]
  rw [← List.append_assoc st.buffer]
  rw [splitLines_append (st.buffer ++ (utf8FeedChunk st.dec a).2)
        (utf8FeedChunk (utf8FeedChunk st.dec a).1 b).2]
  rw [splitLines_append (splitLines (st.buffer ++ (utf8FeedChunk st.dec a).2)).2
        (utf8FeedChunk (utf8FeedChunk st.dec a).1 b).2]
  rw [splitLines_of_not_mem _ (nl_not_mem_splitLines_rest _)]
  simp [linesEvents_append, List.append_assoc]

/-- Feeding a chunk list is the same as feeding the flattened byte stream,
provided the starting buffer is a pure partial line (as every reachable
buffer is). -/
theorem foldl_onData_flatten (cs : List (List Nat)) (s : StreamState)
    (h : splitLines s.buffer = ([], s.buffer)) :
    cs.foldl onData s = onData s cs.flatten := by
  induction cs generalizing s with
  | nil =>
    cases s with
    | mk d buf evs =>
      simp only at h
      simp [onData, utf8FeedChunk, linesEvents, h]
  | cons c cs ih =>
    rw [List.foldl_cons, List.flatten_cons, ← onData_append]
    exact ih (onData s c) (splitLines_of_not_mem _ (nl_not_mem_splitLines_rest _))

/-- Substring containment follows from being a prefix. -/
theorem isPrefixOf_append_self (p t : List Char) : p.isPrefixOf (p ++ t) = true := by
  rw [List.isPrefixOf_iff_prefix]
  exact List.prefix_append p t

/-- Dropping the six-character frame marker from a marker-prefixed line
leaves the payload. -/
theorem drop_dataMarker (rest : List Char) : (dataMarker ++ rest).drop 6 = rest :=
  List.drop_left dataMarker rest

/-- A marker-prefixed line does not trim to the empty string. -/
theorem trimWs_dataMarker_ne_nil (rest : List Char) :
    trimWs (dataMarker ++ rest) ≠ [] := by
  intro h
  unfold trimWs at h
  rw [show (dataMarker ++ rest).dropWhile isWsChar = 'd' :: ((("ata: ").data) ++ rest) from rfl] at h
  rw [List.reverse_eq_nil_iff, List.dropWhile_eq_nil_iff] at h
  have hd := h 'd' (by simp)
  simp [isWsChar] at hd

/-- C3: for every fixed logical byte sequence, every way of splitting it
into chunks — including splits mid-line and mid-multibyte-character —
produces the identical ordered sequence of callback invocations, because
the text decoder state, the line buffer and the emitted events are all
functions of the concatenated bytes only. -/
theorem streamEvents_chunking_invariant (cs1 cs2 : List (List Nat))
    (h : cs1.flatten = cs2.flatten) :
    streamEvents cs1 = streamEvents cs2 := by
  unfold streamEvents
  rw [foldl_onData_flatten cs1 initState rfl, foldl_onData_flatten cs2 initState rfl, h]

/-- One frame carrying the two-byte UTF-8 encoding of `é` inside its JSON
payload, followed by a newline. -/
def c3Bytes : List Nat :=
  ((("data: \x7b\x22response\x22:\x22").data).map Char.toNat) ++ [195, 169] ++
    ((("\x22\x7d\n").data).map Char.toNat)

/-- The same logical bytes split into two chunks, the boundary falling
between the two bytes of the multi-byte character. -/
theorem streamEvents_chunking_invariant_witness :
    ([c3Bytes] : List (List Nat)).flatten = [c3Bytes.take 20, c3Bytes.drop 20].flatten ∧
    streamEvents [c3Bytes] = streamEvents [c3Bytes.take 20, c3Bytes.drop 20] :=
  ⟨by simp, streamEvents_chunking_invariant _ _ (by simp)⟩

example : streamEvents [c3Bytes.take 20, c3Bytes.drop 20] =
    [Event.success (.obj [(respKey, .str [Char.ofNat 0xE9])]), Event.complete] := by rfl

/-- An end-marker frame followed by an ordinary data frame, as one chunk. -/
def c1Bytes : List Nat :=
  (("data: undefined\ndata: \x7b\x22response\x22:\x22hi\x22\x7d\n").data).map Char.toNat

/-- C1 (failing behaviour): on a stream whose first frame is the
end-marker, the decoder invokes the completion callback at the marker,
still processes the following data frame, and invokes the completion
callback a second time when end-of-input arrives — the completion callback
fires twice rather than exactly once and nothing stops further
processing. -/
theorem endMarker_double_completion :
    streamEvents [c1Bytes] =
      [Event.complete,
       Event.success (.obj [(respKey, .str (("hi").data))]),
       Event.complete] := by rfl

/-- C2 (counterexample): on the spec's own example line the fetch-based
decoder `processLine` has no `statusCode` classification at all — the
payload parses as JSON and is delivered to the success callback, with zero
error callbacks. -/
theorem statusCode_line_success_counterexample :
    processLine (("data: \x7b\x22statusCode\x22:500,\x22message\x22:\x22boom\x22\x7d").data) =
      [Event.success (.obj [((("statusCode").data), .num (("500").data)),
                            ((("message").data), .str (("boom").data))])] := by rfl

/-- C2 (amended): in the EventSource-based handler, a `data: `-prefixed
line whose trimmed payload contains `statusCode` produces exactly one
error callback carrying the raw payload, and no success or completion
callback. -/
theorem listenToStream_statusCode_error (line rest : List Char)
    (h1 : line = dataMarker ++ rest)
    (h2 : hasSub (trimWs rest) statusMarker = true) :
    listenToStreamMessage line = [ESEvent.error (trimWs rest)] := by
  subst h1
  have hp := isPrefixOf_append_self dataMarker rest
  have ht := trimWs_dataMarker_ne_nil rest
  simp [listenToStreamMessage, drop_dataMarker, hp, ht, h2]

/-- The amended C2 at the spec's example line. -/
theorem listenToStream_statusCode_error_witness :
    listenToStreamMessage (dataMarker ++ (("\x7b\x22statusCode\x22:500,\x22message\x22:\x22boom\x22\x7d").data)) =
      [ESEvent.error (trimWs (("\x7b\x22statusCode\x22:500,\x22message\x22:\x22boom\x22\x7d").data))] :=
  listenToStream_statusCode_error _ _ rfl rfl

/-- C4 (counterexample): a line in which `data: ` appears only in the
middle — here a JSON object whose string member contains it — is not
skipped: `processLine`'s guard is a containment test, so the whole line is
parsed and a success callback fires where the claim requires zero
callbacks. -/
theorem nonleading_dataMarker_counterexample :
    processLine (("\x7b\x22a\x22:\x22data: b\x22\x7d").data) =
      [Event.success (.obj [((("a").data), .str (("data: b").data))])] := by rfl

/-- C4 (amended): a line that nowhere contains `data: ` (in particular any
line that is empty after trimming) produces no callback; but a line
containing `data: ` in a non-leading position is not skipped — if it also
contains the token `undefined` anywhere it fires the completion callback,
and otherwise no prefix is stripped, the entire line is JSON-parsed, and a
success or error callback results. -/
theorem processLine_skip_and_nonleading :
    (∀ line : List Char, hasSub line dataMarker = false → processLine line = []) ∧
    (∀ line : List Char, hasSub line dataMarker = true →
      hasSub line undefMarker = true → processLine line = [Event.complete]) ∧
    (∀ line : List Char, hasSub line dataMarker = true →
      dataMarker.isPrefixOf line = false → hasSub line undefMarker = false →
      processLine line =
        (match jsonParse line with
         | some v => [Event.success v]
         | none => [Event.error parseFailMsg])) := by
  refine ⟨?_, ?_, ?_⟩
  · intro line h
    unfold processLine
    rw [if_pos (Or.inr h)]
  · intro line h1 h2
    have hl : line ≠ [] := by
      intro he
      rw [he] at h1
      exact absurd h1 (by decide)
    simp [processLine, hl, h1, h2]
  · intro line h1 h2 h3
    have hl : line ≠ [] := by
      intro he
      rw [he] at h1
      exact absurd h1 (by decide)
    simp [processLine, hl, h1, h2, h3]

/-- The amended C4 at three concrete lines: protocol noise produces
nothing, a non-leading marker alongside the `undefined` token produces a
completion callback, and a non-leading marker otherwise produces a
parse-error callback. -/
theorem processLine_skip_and_nonleading_witness :
    processLine (("keep-alive ping").data) = [] ∧
    processLine (("x data: undefined").data) = [Event.complete] ∧
    processLine (("x data: y").data) = [Event.error parseFailMsg] := by
  refine ⟨processLine_skip_and_nonleading.1 _ rfl,
          processLine_skip_and_nonleading.2.1 _ rfl rfl, ?_⟩
  rw [processLine_skip_and_nonleading.2.2 (("x data: y").data) rfl rfl rfl]
  rfl

/-- C5 (counterexample): the fetch-based decoder passes the whole parsed
object to the success callback — a server field the spec says must not
reach the caller (`extra`) is present in the delivered value, and no
projection to `response`/`systemPrompt` happens. -/
theorem processLine_extra_field_counterexample :
    processLine (dataMarker ++ (("\x7b\x22response\x22:\x22hi\x22,\x22extra\x22:1\x7d").data)) =
      [Event.success (.obj [(respKey, .str (("hi").data)),
                            ((("extra").data), .num (("1").data))])] := by rfl

/-- C5 (amended): in the EventSource-based handler, a data frame whose
payload parses as a JSON object is delivered through `createChatResponse`
as a record with exactly the two projected fields `response` and
`systemPrompt` — each `none` when the server omitted it, and every other
server field dropped. -/
theorem listenToStream_projection (line rest : List Char)
    (fs : List (List Char × JsonValue))
    (h1 : line = dataMarker ++ rest)
    (h2 : hasSub (trimWs rest) statusMarker = false)
    (h3 : hasSub (trimWs rest) undefMarker = false)
    (h4 : jsonParse (trimWs rest) = some (.obj fs)) :
    listenToStreamMessage line =
      [ESEvent.success ⟨lookupField fs respKey, lookupField fs sysKey⟩] := by
  subst h1
  have hp := isPrefixOf_append_self dataMarker rest
  have ht := trimWs_dataMarker_ne_nil rest
  simp [listenToStreamMessage, drop_dataMarker, hp, ht, h2, h3, h4,
        createChatResponse, jsField]

/-- The amended C5 on a payload with an extra field: the delivered record
carries only the two projections. -/
theorem listenToStream_projection_witness :
    listenToStreamMessage
        (dataMarker ++ (("\x7b\x22response\x22:\x22hi\x22,\x22extra\x22:1,\x22systemPrompt\x22:\x22p\x22\x7d").data)) =
      [ESEvent.success ⟨some (.str (("hi").data)), some (.str (("p").data))⟩] := by
  rw [listenToStream_projection
        (dataMarker ++ (("\x7b\x22response\x22:\x22hi\x22,\x22extra\x22:1,\x22systemPrompt\x22:\x22p\x22\x7d").data))
        (("\x7b\x22response\x22:\x22hi\x22,\x22extra\x22:1,\x22systemPrompt\x22:\x22p\x22\x7d").data)
        [((("response").data), .str (("hi").data)),
         ((("extra").data), .num (("1").data)),
         ((("systemPrompt").data), .str (("p").data))] rfl rfl rfl rfl]
  rfl

/-- C6: a data line with a malformed JSON payload produces exactly one
error callback and leaves the rest of the stream untouched — the lines
before and after it produce exactly the events they would produce on their
own. -/
theorem processLine_malformed_isolated (pre post : List (List Char)) (m : List Char)
    (h1 : hasSub m dataMarker = true)
    (h2 : hasSub m undefMarker = false)
    (h3 : jsonParse (if dataMarker.isPrefixOf m then m.drop 6 else m) = none) :
    linesEvents (pre ++ m :: post) =
      linesEvents pre ++ [Event.error parseFailMsg] ++ linesEvents post := by
  have hm : m ≠ [] := by
    intro he
    rw [he] at h1
    exact absurd h1 (by decide)
  rw [show pre ++ m :: post = pre ++ [m] ++ post from by simp]
  rw [linesEvents_append, linesEvents_append]
  have hline : processLine m = [Event.error parseFailMsg] := by
    unfold processLine
    rw [if_neg (by simp [hm, h1] : ¬ (m = [] ∨ hasSub m dataMarker = false))]
    rw [if_neg (by simp [h2] : ¬ hasSub m undefMarker = true)]
    simp only [h3]
  have hmid : linesEvents [m] = [Event.error parseFailMsg] := by
    simp [linesEvents, lineEvents, hm, hline]
  rw [hmid]

/-- The C6 theorem on a malformed line between two well-formed ones: the
neighbours still produce their success events. -/
theorem processLine_malformed_isolated_witness :
    linesEvents ([(("data: \x7b\x22response\x22:\x22a\x22\x7d").data)] ++
        (("data: \x7bnotjson").data) :: [(("data: \x7b\x22response\x22:\x22b\x22\x7d").data)]) =
      linesEvents [(("data: \x7b\x22response\x22:\x22a\x22\x7d").data)] ++
        [Event.error parseFailMsg] ++
        linesEvents [(("data: \x7b\x22response\x22:\x22b\x22\x7d").data)] :=
  processLine_malformed_isolated _ _ _ rfl rfl rfl

/-- C7: when end-of-input arrives with a non-empty residual line whose
payload is a valid data payload, the residual is processed by the same
per-line algorithm and its success event is delivered before the
completion callback fires. -/
theorem onEnd_residual_line (d : DecoderState) (evs : List Event)
    (buf : List Char) (v : JsonValue)
    (h1 : dataMarker.isPrefixOf buf = true)
    (h2 : hasSub buf dataMarker = true)
    (h3 : hasSub buf undefMarker = false)
    (h4 : jsonParse (buf.drop 6) = some v) :
    onEnd ⟨d, buf, evs⟩ = evs ++ [Event.success v, Event.complete] := by
  have hb : buf ≠ [] := by
    intro he
    rw [he] at h2
    exact absurd h2 (by decide)
  simp [onEnd, hb, processLine, h1, h2, h3, h4]

/-- The C7 theorem at a concrete unterminated trailing frame. -/
theorem onEnd_residual_line_witness :
    onEnd ⟨⟨0, 0⟩, (("data: \x7b\x22response\x22:\x22hi\x22\x7d").data), []⟩ =
      [] ++ [Event.success (.obj [(respKey, .str (("hi").data))]), Event.complete] :=
  onEnd_residual_line _ _ _ _ rfl rfl rfl rfl

example : streamEvents [(("data: \x7b\x22response\x22:\x22hi\x22\x7d").data).map Char.toNat] =
    [Event.success (.obj [(respKey, .str (("hi").data))]), Event.complete] := by rfl

/-- The parse of `okBody`. -/
def okBodyVal : JsonValue :=
  .obj [((("choices").data),
         .arr [.obj [((("message").data),
                      .obj [((("content").data), .str (("ok").data))])]])]

example : jsonParse okBody = some okBodyVal := by rfl

/-- C8: the non-streaming call never lets an exception escape — every
outcome yields either a `{success: true, content}` or a
`{success: false, error}` value; a transport failure, a body that fails to
parse, and a non-201 status each yield a failure result, and a 201
response whose body yields a message content through
`data.choices[0].message.content` yields that content as a success. -/
theorem chatWithAgentFuture_total :
    (∀ o : FetchOutcome, (∃ c, chatWithAgentFuture o = .success c) ∨
        (∃ m, chatWithAgentFuture o = .failure m)) ∧
    (∀ m, chatWithAgentFuture (.networkError m) = .failure m) ∧
    (∀ s b, jsonParse b = none →
        chatWithAgentFuture (.response s b) = .failure bodyParseErrMsg) ∧
    (∀ s b, s ≠ 201 → (∃ m, chatWithAgentFuture (.response s b) = .failure m)) ∧
    (∀ b d, jsonParse b = some d → extractContent d = .error () →
        chatWithAgentFuture (.response 201 b) = .failure chainTypeErrMsg) ∧
    (∀ b d c, jsonParse b = some d → extractContent d = .ok c →
        chatWithAgentFuture (.response 201 b) = .success c) := by
  refine ⟨?_, ?_, ?_, ?_, ?_, ?_⟩
  · intro o
    cases o with
    | networkError m => exact Or.inr ⟨m, rfl⟩
    | response s b =>
      cases hj : jsonParse b with
      | none => exact Or.inr ⟨bodyParseErrMsg, by simp only [chatWithAgentFuture, hj]⟩
      | some d =>
        by_cases hs : s ≠ 201
        · exact Or.inr ⟨httpErrMsg s, by simp only [chatWithAgentFuture, hj, if_pos hs]⟩
        · cases he : extractContent d with
          | ok c =>
            exact Or.inl ⟨c, by simp only [chatWithAgentFuture, hj, if_neg hs, he]⟩
          | error u =>
            exact Or.inr ⟨chainTypeErrMsg,
              by simp only [chatWithAgentFuture, hj, if_neg hs, he]⟩
  · intro m
    rfl
  · intro s b h
    simp only [chatWithAgentFuture, h]
  · intro s b h
    cases hj : jsonParse b with
    | none => exact ⟨bodyParseErrMsg, by simp only [chatWithAgentFuture, hj]⟩
    | some d => exact ⟨httpErrMsg s, by simp only [chatWithAgentFuture, hj, if_pos h]⟩
  · intro b d h1 h2
    simp only [chatWithAgentFuture, h1, h2]
    rw [if_neg (by simp)]
  · intro b d c h1 h2
    simp only [chatWithAgentFuture, h1, h2]
    rw [if_neg (by simp)]

/-- The C8 theorem at the spec's mocked exchanges: a network failure, a
failing status with a well-formed body, and a successful 201 exchange. -/
theorem chatWithAgentFuture_total_witness :
    chatWithAgentFuture (.networkError (("socket hangup").data)) =
      .failure (("socket hangup").data) ∧
    (∃ m, chatWithAgentFuture (.response 500 okBody) = .failure m) ∧
    chatWithAgentFuture (.response 201 okBody) = .success (some (.str (("ok").data))) := by
  refine ⟨chatWithAgentFuture_total.2.1 _,
          chatWithAgentFuture_total.2.2.2.1 500 okBody (by decide), ?_⟩
  exact chatWithAgentFuture_total.2.2.2.2.2 okBody okBodyVal (some (.str (("ok").data))) rfl rfl

/-- C9: the stop/close operation is idempotent — after any call the handle
reference is cleared, a second call performs no close effect, a call on a
live handle performs exactly one close across both calls, and a call with
no handle ever opened performs none. -/
theorem stopChatStream_idempotent {H : Type} (es : Option H) :
    (stopChatStream es).1 = none ∧
    (stopChatStream (stopChatStream es).1).2 = [] ∧
    (∀ h : H, es = some h →
      (stopChatStream es).2 ++ (stopChatStream (stopChatStream es).1).2 = [h]) ∧
    (es = none → (stopChatStream es).2 = []) := by
  cases es <;> simp [stopChatStream]

/-- The C9 theorem at a concrete open handle. -/
theorem stopChatStream_idempotent_witness :
    (stopChatStream (some 0)).1 = (none : Option Nat) ∧
    (stopChatStream (some (0 : Nat))).2 ++
      (stopChatStream (stopChatStream (some (0 : Nat))).1).2 = [0] :=
  ⟨(stopChatStream_idempotent (some 0)).1,
   (stopChatStream_idempotent (some 0)).2.2.1 0 rfl⟩

/-- C10: the non-streaming call treats exactly status 201 as success — any
other status, including 200, yields a failure result even with a
well-formed body, while 201 with the same body succeeds. -/
theorem status_201_required :
    (∀ s b, s ≠ 201 → (∃ m, chatWithAgentFuture (.response s b) = .failure m)) ∧
    chatWithAgentFuture (.response 201 okBody) = .success (some (.str (("ok").data))) := by
  constructor
  · intro s b h
    cases hj : jsonParse b with
    | none => exact ⟨bodyParseErrMsg, by simp only [chatWithAgentFuture, hj]⟩
    | some d => exact ⟨httpErrMsg s, by simp only [chatWithAgentFuture, hj, if_pos h]⟩
  · rfl

/-- The C10 theorem at the conventional success status 200 with a
well-formed body. -/
theorem status_201_required_witness :
    ∃ m, chatWithAgentFuture (.response 200 okBody) = .failure m :=
  status_201_required.1 200 okBody (by decide)
